import Mathlib

/-!
Shallow embedding of the Fallback Web Fetcher
(`src/search_tool/Agent/scraping_tool.py`, class `WebScrapingTool`).

The two scraping paths are asynchronous calls whose outcome is either a
returned string or a raised exception; we model an awaited path outcome as
`Except String String` (`Except.error msg` = the call raised an exception
whose string form is `msg`, `Except.ok s` = the call returned `s`).
Wall-clock duration (`datetime.now()` twice, line 101 and 129) is
non-deterministic, so the formatted duration figure is a parameter.
Python string truthiness (`if not content`) is emptiness, and Python
`len`/slicing count code points, matching `String.length`/`String.take`.
-/

/-- A plain HTTP response, the environment feeding `_scrape_with_aiohttp`:
the status observed by `response.raise_for_status()` and the body returned
by `response.text()`. -/
structure HttpResponse where
  status : Nat
  body : String
deriving DecidableEq

/-- `get_default_tags` (scraping_tool.py lines 23-25). -/
def get_default_tags : List String :=
  ["p", "li", "div", "a", "span", "h1", "h2", "h3", "h4", "h5", "h6", "pre", "code", "table"]

/-- One token of the HTML stream: an opening tag, a closing tag, or a text
node, as produced by an HTML parser on well-formed markup. -/
inductive HtmlToken where
  | tagOpen (name : String)
  | tagClose (name : String)
  | text (s : String)
deriving DecidableEq

/-- Lower-cased leading tag name of the character sequence inside `<...>`. -/
def tagNameOf (inner : List Char) : String :=
  String.mk ((inner.takeWhile (fun c => c.isAlphanum)).map Char.toLower)

/-- Fuel-indexed HTML tokenizer: splits the raw markup into tag and text
tokens. Models the parse step of `BeautifulSoup(html_content, "html.parser")`
on well-formed input; the fuel (one unit per token, each token consuming at
least one character) makes the recursion structural. -/
def tokenizeAux : Nat → List Char → List HtmlToken
  | 0, _ => []
  | _, [] => []
  | fuel + 1, '<' :: rest =>
    let inner := rest.takeWhile (fun c => c != '>')
    let rest2 := (rest.dropWhile (fun c => c != '>')).drop 1
    let tok :=
      match inner with
      | '/' :: nm => HtmlToken.tagClose (tagNameOf nm)
      | nm => HtmlToken.tagOpen (tagNameOf nm)
    tok :: tokenizeAux fuel rest2
  | fuel + 1, c :: rest =>
    HtmlToken.text (String.mk (c :: rest.takeWhile (fun d => d != '<')))
      :: tokenizeAux fuel (rest.dropWhile (fun d => d != '<'))

/-- Tokenize a whole HTML document. -/
def tokenize (html : String) : List HtmlToken :=
  tokenizeAux html.length html.data

/-- The tags decomposed before text extraction
(`soup(["script", "style", "nav", "footer", "header"])`, line 89). -/
def removed_tags : List String :=
  ["script", "style", "nav", "footer", "header"]

/-- Collect the text nodes that survive `tag.decompose()` of every element
whose tag is in `removed_tags`: `depth` counts how deep we currently are
inside a decomposed subtree (0 = outside every removed element). -/
def collectText : List HtmlToken → Nat → List String
  | [], _ => []
  | HtmlToken.tagOpen n :: ts, 0 =>
    if removed_tags.contains n then collectText ts 1 else collectText ts 0
  | HtmlToken.tagOpen _ :: ts, d + 1 => collectText ts (d + 2)
  | HtmlToken.tagClose _ :: ts, 0 => collectText ts 0
  | HtmlToken.tagClose _ :: ts, d + 1 => collectText ts d
  | HtmlToken.text s :: ts, 0 => s :: collectText ts 0
  | HtmlToken.text _ :: ts, d + 1 => collectText ts (d + 1)

/-- Join a list of strings with a separator. -/
def joinSep (sep : String) : List String → String
  | [] => ""
  | [s] => s
  | s :: rest => s ++ sep ++ joinSep sep rest

/-- Remove leading and trailing whitespace from a string (Python `str.strip`,
applied by `get_text(..., strip=True)` to every text piece). -/
def strip (s : String) : String :=
  String.mk (((s.data.dropWhile Char.isWhitespace).reverse.dropWhile
    Char.isWhitespace).reverse)

/-- `soup.get_text(separator="\n", strip=True)` (line 91): every surviving
text node is whitespace-stripped, empty pieces are dropped, and the rest are
joined with the separator. -/
def get_text (tokens : List HtmlToken) : String :=
  joinSep "\n" (((collectText tokens 0).map strip).filter (fun s => s != ""))

/-- The pure extraction done by `_scrape_with_aiohttp` on a response body
(lines 88-91): parse, decompose script/style/nav/footer/header, get text. -/
def extract_text (html : String) : String :=
  get_text (tokenize html)

/-- `_scrape_with_aiohttp` (lines 79-91) as a function of the observed
response: `response.raise_for_status()` raises on a 4xx or 5xx status
(modelled by a descriptive message naming the status and url), otherwise the
body is parsed and its visible text extracted. The `tags_to_extract`
argument is accepted, as in the source, and never read. -/
def scrape_with_aiohttp (resp : HttpResponse) (url : String)
    (tags_to_extract : List String) : Except String String :=
  if 400 ≤ resp.status then
    Except.error ("HTTP status " ++ toString resp.status ++ " for url " ++ url)
  else
    Except.ok (extract_text resp.body)

/-- The method-dispatch block of `_process_scraping` (lines 103-124): given
the awaited outcome of each path and the requested method, produce either
the raised exception message (to be caught at line 139) or the pair
`(content, used_method)` reaching line 125. In mode `auto` the inner
`try/except` (lines 106-114) falls back to the aiohttp outcome exactly when
the chromium outcome is an exception. -/
def process_scraping_core (chromiumR aiohttpR : Except String String)
    (method : String) : Except String (String × String) :=
  if method = "auto" then
    match chromiumR with
    | Except.ok content => Except.ok (content, "chromium")
    | Except.error _ =>
      match aiohttpR with
      | Except.ok content => Except.ok (content, "aiohttp")
      | Except.error e => Except.error e
  else if method = "chromium" then
    match chromiumR with
    | Except.ok content => Except.ok (content, "chromium")
    | Except.error e => Except.error e
  else if method = "aiohttp" then
    match aiohttpR with
    | Except.ok content => Except.ok (content, "aiohttp")
    | Except.error e => Except.error e
  else
    Except.error ("Unknown method: " ++ method)

/-- The truncation marker appended at line 128. -/
def truncation_marker : String := "\n\n... (content truncated)"

/-- Lines 127-128: `content[:max_content_length] + marker` when the content
exceeds the configured maximum, the content unchanged otherwise. -/
def truncate_content (max_content_length : Nat) (content : String) : String :=
  if content.length > max_content_length then
    content.take max_content_length ++ truncation_marker
  else
    content

/-- The success block returned at lines 131-138 (an f-string starting and
ending with a newline; `duration` stands for the already-formatted
`{duration:.2f}` figure). -/
def format_success (url used_method duration content : String) : String :=
  "\n**Website Scraped:** " ++ url ++
  "\n**Method Used:** " ++ used_method ++
  "\n**Duration:** " ++ duration ++ " seconds" ++
  "\n**Content Length:** " ++ toString content.length ++ " characters" ++
  "\n**Content Extracted:**\n" ++ content ++ "\n"

/-- The no-content outcome returned at line 126. -/
def no_content_msg (url used_method : String) : String :=
  "❌ No content extracted from " ++ url ++ " using method " ++ used_method ++ "."

/-- The catch-all error string built at line 140. -/
def scraping_error_msg (url e : String) : String :=
  "❌ Web scraping error for " ++ url ++ ": " ++ e

/-- `_process_scraping` (lines 92-140): dispatch on the method, convert any
raised exception into the error string, return the no-content outcome on an
empty extraction, otherwise truncate and format the success block. -/
def process_scraping (chromiumR aiohttpR : Except String String)
    (url method : String) (max_content_length : Nat) (duration : String) : String :=
  match process_scraping_core chromiumR aiohttpR method with
  | Except.error e => scraping_error_msg url e
  | Except.ok (content, used_method) =>
    if content = "" then
      no_content_msg url used_method
    else
      format_success url used_method duration (truncate_content max_content_length content)

/-- The full pipeline of one call: the chromium path outcome is an opaque
function of the tag allow-list (the browser render and
`BeautifulSoupTransformer` are external collaborators receiving
`tags_to_extract`, lines 63-78), the aiohttp path outcome is
`scrape_with_aiohttp` on the observed response, and a `None` tag list is
replaced by the defaults (lines 96-97). -/
def process_scraping_full (chromiumF : List String → Except String String)
    (resp : HttpResponse) (url : String) (tags_to_extract : Option (List String))
    (method : String) (max_content_length : Nat) (duration : String) : String :=
  let tags := tags_to_extract.getD get_default_tags
  process_scraping (chromiumF tags) (scrape_with_aiohttp resp url tags)
    url method max_content_length duration

/-! Helper lemmas shared by the claim theorems. -/

/-- Taking at most the length of a string yields exactly `n` characters. -/
theorem string_take_length_of_le (s : String) (n : Nat) (h : n ≤ s.length) :
    (s.take n).length = n := by
  rw [String.take_eq]
  show (s.1.take n).length = n
  rw [List.length_take]
  exact Nat.min_eq_left h

/-- When the dispatch reaches line 125 with `(content, used_method)`, the
call returns the no-content outcome or the formatted success block. -/
theorem process_scraping_ok (chromiumR aiohttpR : Except String String)
    (url method duration c m : String) (max_content_length : Nat)
    (hcore : process_scraping_core chromiumR aiohttpR method = Except.ok (c, m)) :
    process_scraping chromiumR aiohttpR url method max_content_length duration =
      if c = "" then no_content_msg url m
      else format_success url m duration (truncate_content max_content_length c) := by
  unfold process_scraping
  rw [hcore]

/-- When the dispatch raises, the call returns the catch-all error string. -/
theorem process_scraping_err (chromiumR aiohttpR : Except String String)
    (url method duration e : String) (max_content_length : Nat)
    (hcore : process_scraping_core chromiumR aiohttpR method = Except.error e) :
    process_scraping chromiumR aiohttpR url method max_content_length duration =
      scraping_error_msg url e := by
  unfold process_scraping
  rw [hcore]

/-- The no-content outcome and the error outcome differ in wording for every
url, method and exception message. -/
theorem no_content_ne_error (url m e : String) :
    no_content_msg url m ≠ scraping_error_msg url e := by
  intro h
  have hd := congrArg String.data h
  simp only [no_content_msg, scraping_error_msg, String.data_append] at hd
  simp [List.append_assoc, List.cons_append] at hd

/-- C1: in mode `auto`, when the chromium path raises and the aiohttp path
returns non-empty text, the dispatch reports `aiohttp` as the method used
and the call returns the success block naming `aiohttp`. -/
theorem C1_auto_fallback_uses_http (e c url duration : String)
    (max_content_length : Nat) (hc : c ≠ "") :
    process_scraping_core (Except.error e) (Except.ok c) "auto" =
      Except.ok (c, "aiohttp") ∧
    process_scraping (Except.error e) (Except.ok c) url "auto"
        max_content_length duration =
      format_success url "aiohttp" duration (truncate_content max_content_length c) := by
  refine ⟨rfl, ?_⟩
  rw [process_scraping_ok (Except.error e) (Except.ok c) url "auto" duration c
    "aiohttp" max_content_length rfl, if_neg hc]

/-- Witness for C1 at a concrete input. -/
theorem C1_witness :
    process_scraping_core (Except.error "boom") (Except.ok "ok") "auto" =
      Except.ok ("ok", "aiohttp") ∧
    process_scraping (Except.error "boom") (Except.ok "ok") "u" "auto" 20000 "0.10" =
      format_success "u" "aiohttp" "0.10" (truncate_content 20000 "ok") :=
  C1_auto_fallback_uses_http "boom" "ok" "u" "0.10" 20000 (by decide)

/-- C2: every exception raised during a scraping path or by an unrecognized
mode string is converted at the orchestration boundary into the descriptive
error string returned to the caller (the orchestration is a total function
into strings, so no exception escapes the public entry point): a chromium
raise in mode `chromium`, an aiohttp raise in mode `aiohttp`, both raising
in mode `auto`, an unknown mode string, and a non-2xx HTTP status observed
by `raise_for_status` all produce the error string. -/
theorem C2_exceptions_become_error_strings
    (chromiumR aiohttpR : Except String String)
    (url method duration e e2 : String) (max_content_length : Nat) :
    (process_scraping (Except.error e) aiohttpR url "chromium"
        max_content_length duration = scraping_error_msg url e) ∧
    (process_scraping chromiumR (Except.error e) url "aiohttp"
        max_content_length duration = scraping_error_msg url e) ∧
    (process_scraping (Except.error e2) (Except.error e) url "auto"
        max_content_length duration = scraping_error_msg url e) ∧
    (method ≠ "auto" → method ≠ "chromium" → method ≠ "aiohttp" →
      process_scraping chromiumR aiohttpR url method max_content_length duration =
        scraping_error_msg url ("Unknown method: " ++ method)) ∧
    (∀ (resp : HttpResponse) (tags : List String), 400 ≤ resp.status →
      process_scraping chromiumR (scrape_with_aiohttp resp url tags) url "aiohttp"
          max_content_length duration =
        scraping_error_msg url
          ("HTTP status " ++ toString resp.status ++ " for url " ++ url)) := by
  refine ⟨rfl, rfl, rfl, ?_, ?_⟩
  · intro h1 h2 h3
    apply process_scraping_err
    simp [process_scraping_core, h1, h2, h3]
  · intro resp tags h
    apply process_scraping_err
    unfold scrape_with_aiohttp
    rw [if_pos h]
    rfl

/-- Witness for C2 at concrete inputs. -/
theorem C2_witness :
    process_scraping (Except.ok "x") (Except.ok "y") "u" "bogus" 5 "0.00" =
      scraping_error_msg "u" ("Unknown method: " ++ "bogus") ∧
    process_scraping (Except.ok "x")
        (scrape_with_aiohttp ⟨404, "<div>ok</div>"⟩ "u" []) "u" "aiohttp" 5 "0.00" =
      scraping_error_msg "u" ("HTTP status " ++ toString 404 ++ " for url " ++ "u") :=
  ⟨(C2_exceptions_become_error_strings (Except.ok "x") (Except.ok "y") "u" "bogus"
      "0.00" "" "" 5).2.2.2.1 (by decide) (by decide) (by decide),
   (C2_exceptions_become_error_strings (Except.ok "x") (Except.ok "y") "u" "bogus"
      "0.00" "" "" 5).2.2.2.2 ⟨404, "<div>ok</div>"⟩ [] (by decide)⟩

/-- C3: in mode `chromium`, a chromium raise yields the error outcome, and
the aiohttp outcome never influences the result (the HTTP path is never
invoked). -/
theorem C3_browser_mode_failure_is_terminal (e url duration : String)
    (aiohttpR aiohttpR2 : Except String String) (max_content_length : Nat) :
    process_scraping (Except.error e) aiohttpR url "chromium"
        max_content_length duration = scraping_error_msg url e ∧
    ∀ chromiumR : Except String String,
      process_scraping chromiumR aiohttpR url "chromium"
          max_content_length duration =
        process_scraping chromiumR aiohttpR2 url "chromium"
          max_content_length duration := by
  refine ⟨rfl, ?_⟩
  intro chromiumR
  cases chromiumR <;> rfl

/-- C4: a successful fetch whose content exceeds the configured maximum
returns the success block whose content is the truncation: its length is
exactly the maximum plus the marker length, and the marker sits at its
end. -/
theorem C4_truncated_length_is_max_plus_marker
    (chromiumR aiohttpR : Except String String)
    (url method duration c m : String) (max_content_length : Nat)
    (hcore : process_scraping_core chromiumR aiohttpR method = Except.ok (c, m))
    (hlen : c.length > max_content_length) :
    process_scraping chromiumR aiohttpR url method max_content_length duration =
      format_success url m duration (truncate_content max_content_length c) ∧
    (truncate_content max_content_length c).length =
      max_content_length + truncation_marker.length ∧
    ∃ p, truncate_content max_content_length c = p ++ truncation_marker := by
  have hc : c ≠ "" := by
    intro h
    rw [h, String.length_empty] at hlen
    exact absurd hlen (Nat.not_lt_zero _)
  refine ⟨?_, ?_, ⟨c.take max_content_length, ?_⟩⟩
  · rw [process_scraping_ok chromiumR aiohttpR url method duration c m
      max_content_length hcore, if_neg hc]
  · unfold truncate_content
    rw [if_pos hlen, String.length_append,
      string_take_length_of_le c max_content_length (Nat.le_of_lt hlen)]
  · unfold truncate_content
    rw [if_pos hlen]

/-- Witness for C4 at a concrete input: maximum 3, content of length 6. -/
theorem C4_witness :
    process_scraping (Except.error "b") (Except.ok "abcdef") "u" "auto" 3 "0.00" =
      format_success "u" "aiohttp" "0.00" (truncate_content 3 "abcdef") ∧
    (truncate_content 3 "abcdef").length = 3 + truncation_marker.length ∧
    ∃ p, truncate_content 3 "abcdef" = p ++ truncation_marker :=
  C4_truncated_length_is_max_plus_marker (Except.error "b") (Except.ok "abcdef")
    "u" "auto" "0.00" "abcdef" "aiohttp" 3 rfl (by decide)

/-- C5 counterexample: with the maximum configured to 3 and a successful
fetch of 6 characters, the content included in the returned result has
length 28 (the maximum plus the 25-character marker), not at most 3 — the
claimed bound by the configured maximum alone fails on the code. -/
theorem C5_counterexample :
    process_scraping (Except.error "boom") (Except.ok "abcdef") "u" "auto" 3 "0.00" =
      format_success "u" "aiohttp" "0.00" (truncate_content 3 "abcdef") ∧
    (truncate_content 3 "abcdef").length = 28 ∧
    ¬ (truncate_content 3 "abcdef").length ≤ 3 := by
  refine ⟨rfl, by decide, by decide⟩

/-- C5 (amended): the content of every returned result is bounded by the
configured maximum plus the truncation marker length; when truncation
occurred the marker is appended after exactly `max_content_length` kept
characters, and content within the bound is returned unchanged. -/
theorem C5_amended_content_bound (chromiumR aiohttpR : Except String String)
    (url method duration c m : String) (max_content_length : Nat)
    (hcore : process_scraping_core chromiumR aiohttpR method = Except.ok (c, m))
    (hc : c ≠ "") :
    process_scraping chromiumR aiohttpR url method max_content_length duration =
      format_success url m duration (truncate_content max_content_length c) ∧
    (truncate_content max_content_length c).length ≤
      max_content_length + truncation_marker.length ∧
    (max_content_length < c.length →
      ∃ p, p.length = max_content_length ∧
        truncate_content max_content_length c = p ++ truncation_marker) ∧
    (c.length ≤ max_content_length →
      truncate_content max_content_length c = c) := by
  refine ⟨?_, ?_, ?_, ?_⟩
  · rw [process_scraping_ok chromiumR aiohttpR url method duration c m
      max_content_length hcore, if_neg hc]
  · by_cases hlt : c.length > max_content_length
    · unfold truncate_content
      rw [if_pos hlt, String.length_append,
        string_take_length_of_le c max_content_length (Nat.le_of_lt hlt)]
    · unfold truncate_content
      rw [if_neg hlt]
      exact Nat.le_trans (Nat.le_of_not_lt hlt)
        (Nat.le_add_right max_content_length truncation_marker.length)
  · intro hlt
    refine ⟨c.take max_content_length,
      string_take_length_of_le c max_content_length (Nat.le_of_lt hlt), ?_⟩
    unfold truncate_content
    rw [if_pos hlt]
  · intro hle
    unfold truncate_content
    rw [if_neg (Nat.not_lt_of_le hle)]

/-- Witness for the amended C5 at a concrete input. -/
theorem C5_amended_witness :
    process_scraping (Except.error "b") (Except.ok "abcdef") "u" "auto" 3 "0.00" =
      format_success "u" "aiohttp" "0.00" (truncate_content 3 "abcdef") ∧
    (truncate_content 3 "abcdef").length ≤ 3 + truncation_marker.length ∧
    (3 < ("abcdef" : String).length →
      ∃ p, p.length = 3 ∧ truncate_content 3 "abcdef" = p ++ truncation_marker) ∧
    (("abcdef" : String).length ≤ 3 → truncate_content 3 "abcdef" = "abcdef") :=
  C5_amended_content_bound (Except.error "b") (Except.ok "abcdef") "u" "auto"
    "0.00" "abcdef" "aiohttp" 3 rfl (by decide)

/-- C6: whenever the call returns a result with non-empty content and a
reported method, that method is the path whose outcome was exactly that
content (so it reflects the path that produced the non-empty output), and
in mode `auto` with a failed chromium path the reported method is `aiohttp`
(never the primary path after a fallback). -/
theorem C6_method_reflects_producing_path
    (chromiumR aiohttpR : Except String String)
    (url method duration c m : String) (max_content_length : Nat)
    (hcore : process_scraping_core chromiumR aiohttpR method = Except.ok (c, m))
    (hc : c ≠ "") :
    ((m = "chromium" ∧ chromiumR = Except.ok c) ∨
      (m = "aiohttp" ∧ aiohttpR = Except.ok c)) ∧
    (method = "auto" → ∀ e, chromiumR = Except.error e → m = "aiohttp") ∧
    process_scraping chromiumR aiohttpR url method max_content_length duration =
      format_success url m duration (truncate_content max_content_length c) := by
  refine ⟨?_, ?_, ?_⟩
  · by_cases h1 : method = "auto"
    · subst h1
      cases chromiumR with
      | ok content =>
        simp only [process_scraping_core] at hcore
        simp at hcore
        exact Or.inl ⟨hcore.2.symm, by rw [hcore.1]⟩
      | error e1 =>
        cases aiohttpR with
        | ok content =>
          simp only [process_scraping_core] at hcore
          simp at hcore
          exact Or.inr ⟨hcore.2.symm, by rw [hcore.1]⟩
        | error e2 =>
          simp [process_scraping_core] at hcore
    · by_cases h2 : method = "chromium"
      · subst h2
        cases chromiumR with
        | ok content =>
          simp [process_scraping_core] at hcore
          exact Or.inl ⟨hcore.2.symm, by rw [hcore.1]⟩
        | error e1 =>
          simp [process_scraping_core] at hcore
      · by_cases h3 : method = "aiohttp"
        · subst h3
          cases aiohttpR with
          | ok content =>
            simp [process_scraping_core, h2] at hcore
            exact Or.inr ⟨hcore.2.symm, by rw [hcore.1]⟩
          | error e1 =>
            simp [process_scraping_core, h2] at hcore
        · simp [process_scraping_core, h1, h2, h3] at hcore
  · intro h1 e he
    subst h1
    subst he
    cases aiohttpR with
    | ok content =>
      simp [process_scraping_core] at hcore
      exact hcore.2.symm
    | error e2 =>
      simp [process_scraping_core] at hcore
  · rw [process_scraping_ok chromiumR aiohttpR url method duration c m
      max_content_length hcore, if_neg hc]

/-- Witness for C6 at a concrete input: auto mode, chromium raises, aiohttp
returns non-empty content. -/
theorem C6_witness :
    ((("aiohttp" : String) = "chromium" ∧
        (Except.error "boom" : Except String String) = Except.ok "hi") ∨
      (("aiohttp" : String) = "aiohttp" ∧
        (Except.ok "hi" : Except String String) = Except.ok "hi")) ∧
    (("auto" : String) = "auto" → ∀ e : String,
      (Except.error "boom" : Except String String) = Except.error e →
        ("aiohttp" : String) = "aiohttp") ∧
    process_scraping (Except.error "boom") (Except.ok "hi") "u" "auto" 9 "0.00" =
      format_success "u" "aiohttp" "0.00" (truncate_content 9 "hi") :=
  C6_method_reflects_producing_path (Except.error "boom") (Except.ok "hi")
    "u" "auto" "0.00" "hi" "aiohttp" 9 rfl (by decide)

/-- C7: a successful path returning empty text yields the no-content
outcome naming the method used, and that outcome differs in wording from
the error outcome for every possible exception message (and is returned,
not raised). -/
theorem C7_empty_content_is_no_content_outcome
    (chromiumR aiohttpR : Except String String)
    (url method duration m : String) (max_content_length : Nat)
    (hcore : process_scraping_core chromiumR aiohttpR method = Except.ok ("", m)) :
    process_scraping chromiumR aiohttpR url method max_content_length duration =
      no_content_msg url m ∧
    ∀ e, no_content_msg url m ≠ scraping_error_msg url e := by
  refine ⟨?_, fun e => no_content_ne_error url m e⟩
  rw [process_scraping_ok chromiumR aiohttpR url method duration "" m
    max_content_length hcore, if_pos rfl]

/-- Witness for C7 at a concrete input: the chromium path succeeds with
empty text. -/
theorem C7_witness :
    process_scraping (Except.ok "") (Except.ok "x") "u" "auto" 9 "0.00" =
      no_content_msg "u" "chromium" ∧
    ∀ e, no_content_msg "u" "chromium" ≠ scraping_error_msg "u" e :=
  C7_empty_content_is_no_content_outcome (Except.ok "") (Except.ok "x")
    "u" "auto" "0.00" "chromium" 9 rfl

/-- C8: the scenario document is reduced to `Hello` by the HTTP path — the
script element's content is removed before text extraction — and a 200
response carrying it yields `Except.ok "Hello"` for every url and tag list;
style, nav, footer and header elements are likewise removed. -/
theorem C8_script_removed_scenario :
    extract_text "<html><body><script>x</script><p>Hello</p></body></html>" =
      "Hello" ∧
    (∀ (url : String) (tags : List String),
      scrape_with_aiohttp
          ⟨200, "<html><body><script>x</script><p>Hello</p></body></html>"⟩
          url tags = Except.ok "Hello") ∧
    extract_text
"<div><style>a</style><nav>b</nav><footer>c</footer><header>d</header><p>Hi</p></div>"
      = "Hi" := by
  refine ⟨by decide, ?_, by decide⟩
  intro url tags
  unfold scrape_with_aiohttp
  rw [if_neg (by decide : ¬ (400 : Nat) ≤ 200)]
  exact congrArg Except.ok (by decide)

/-- C9: the HTTP-path extraction is a deterministic function of the response
body — two successful responses with the same body produce the same
extracted text regardless of url, tag list or chromium outcome, and a whole
`aiohttp`-mode call gives the same result both times. -/
theorem C9_http_extraction_deterministic
    (r1 r2 : HttpResponse) (url1 url2 : String) (tags1 tags2 : List String)
    (chromiumR1 chromiumR2 : Except String String) (url duration : String)
    (max_content_length : Nat)
    (hb : r1.body = r2.body) (hs1 : r1.status < 400) (hs2 : r2.status < 400) :
    scrape_with_aiohttp r1 url1 tags1 = Except.ok (extract_text r1.body) ∧
    scrape_with_aiohttp r1 url1 tags1 = scrape_with_aiohttp r2 url2 tags2 ∧
    process_scraping chromiumR1 (scrape_with_aiohttp r1 url1 tags1) url
        "aiohttp" max_content_length duration =
      process_scraping chromiumR2 (scrape_with_aiohttp r2 url2 tags2) url
        "aiohttp" max_content_length duration := by
  have e1 : scrape_with_aiohttp r1 url1 tags1 = Except.ok (extract_text r1.body) := by
    unfold scrape_with_aiohttp
    rw [if_neg (Nat.not_le.mpr hs1)]
  have e2 : scrape_with_aiohttp r2 url2 tags2 = Except.ok (extract_text r2.body) := by
    unfold scrape_with_aiohttp
    rw [if_neg (Nat.not_le.mpr hs2)]
  refine ⟨e1, ?_, ?_⟩
  · rw [e1, e2, hb]
  · rw [e1, e2, hb]
    cases chromiumR1 <;> cases chromiumR2 <;> rfl

/-- Witness for C9 at concrete inputs: two responses with the same body but
different statuses, urls, tag lists and chromium outcomes. -/
theorem C9_witness :
    scrape_with_aiohttp ⟨200, "<div>ok</div>"⟩ "u1" [] =
      Except.ok (extract_text "<div>ok</div>") ∧
    scrape_with_aiohttp ⟨200, "<div>ok</div>"⟩ "u1" [] =
      scrape_with_aiohttp ⟨201, "<div>ok</div>"⟩ "u2" ["p"] ∧
    process_scraping (Except.ok "c1") (scrape_with_aiohttp ⟨200, "<div>ok</div>"⟩ "u1" [])
        "u" "aiohttp" 9 "0.00" =
      process_scraping (Except.error "c2")
        (scrape_with_aiohttp ⟨201, "<div>ok</div>"⟩ "u2" ["p"]) "u" "aiohttp" 9 "0.00" :=
  C9_http_extraction_deterministic ⟨200, "<div>ok</div>"⟩ ⟨201, "<div>ok</div>"⟩
    "u1" "u2" [] ["p"] (Except.ok "c1") (Except.error "c2") "u" "0.00" 9
    rfl (by decide) (by decide)

/-- C10: the `tags_to_extract` argument is ignored by the HTTP path — its
outcome is identical for any two tag allow-lists — and the full call's
result depends on the tag list only through the chromium path: whenever the
chromium collaborator treats two tag lists alike, the whole call does. -/
theorem C10_tags_do_not_influence_http_path
    (resp : HttpResponse) (url : String) (tags1 tags2 : List String)
    (chromiumF : List String → Except String String) (method duration : String)
    (max_content_length : Nat) (hch : chromiumF tags1 = chromiumF tags2) :
    scrape_with_aiohttp resp url tags1 = scrape_with_aiohttp resp url tags2 ∧
    process_scraping_full chromiumF resp url (some tags1) method
        max_content_length duration =
      process_scraping_full chromiumF resp url (some tags2) method
        max_content_length duration := by
  refine ⟨rfl, ?_⟩
  have h1 : process_scraping_full chromiumF resp url (some tags1) method
      max_content_length duration =
    process_scraping (chromiumF tags1) (scrape_with_aiohttp resp url tags1)
      url method max_content_length duration := rfl
  have h2 : process_scraping_full chromiumF resp url (some tags2) method
      max_content_length duration =
    process_scraping (chromiumF tags2) (scrape_with_aiohttp resp url tags2)
      url method max_content_length duration := rfl
  have h3 : scrape_with_aiohttp resp url tags1 = scrape_with_aiohttp resp url tags2 := rfl
  rw [h1, h2, hch, h3]

/-- Witness for C10 at concrete inputs. -/
theorem C10_witness :
    scrape_with_aiohttp ⟨200, "<div>ok</div>"⟩ "u" ["p"] =
      scrape_with_aiohttp ⟨200, "<div>ok</div>"⟩ "u" ["div", "span"] ∧
    process_scraping_full (fun _ => Except.error "render failed")
        ⟨200, "<div>ok</div>"⟩ "u" (some ["p"]) "auto" 9 "0.00" =
      process_scraping_full (fun _ => Except.error "render failed")
        ⟨200, "<div>ok</div>"⟩ "u" (some ["div", "span"]) "auto" 9 "0.00" :=
  C10_tags_do_not_influence_http_path ⟨200, "<div>ok</div>"⟩ "u" ["p"]
    ["div", "span"] (fun _ => Except.error "render failed") "auto" "0.00" 9 rfl
